import Mathlib

/-!
Shallow embedding of the Config Cache Fetcher (`window.ConfigManager.get` in the
browser-extension helper).  The component composes a key-value persistent store
(`chrome.storage.local` holding the keys `config_cache` and `config_cache_time`),
a network fetch of a fixed URL, and a wall clock (`Date.now()`, milliseconds).

The embedding follows the source line by line:
* JSON values are an inductive `Json`; JavaScript truthiness on JSON-representable
  values is `Json.truthy` (JSON cannot produce `NaN` or `undefined`, so the falsy
  JSON values are exactly `null`, `false`, `0` and `""`).
* The persistent store is a `Store` with one optional entry per key; an absent
  key reads back as `undefined`, i.e. `none`.
* The environment `Env` carries the single `Date.now()` sample the code takes
  (line `const now = Date.now();`, before the fetch) and the outcome of the one
  `fetch` the code can issue.
* The body of the `try` block is `tryBlock`, returning `Outcome` (a normal
  return or a thrown `JsError`), the store after the call, and the number of
  network fetches issued.  `ConfigManager.get` wraps it with the `catch` block,
  which re-reads `config_cache` from the store and returns it.  Store operations
  are assumed to succeed, as in the source (they are `await`ed without handling).
-/

/-- JSON values, as produced by `response.json()`. -/
inductive Json where
  | null : Json
  | bool : Bool → Json
  | num : Int → Json
  | str : String → Json
  | arr : List Json → Json
  | obj : List (String × Json) → Json

/-- JavaScript truthiness (`ToBoolean`) restricted to JSON-representable values:
`null`, `false`, `0` and `""` are falsy; every other JSON value, including any
array or object, is truthy. -/
def Json.truthy : Json → Bool
  | .null => false
  | .bool b => b
  | .num n => n != 0
  | .str s => s != ""
  | .arr _ => true
  | .obj _ => true

/-- The persistent store (`chrome.storage.local`) restricted to the two keys the
component owns: `config_cache` (the payload) and `config_cache_time` (the
timestamp in ms).  `none` models an absent key, which reads as `undefined`. -/
structure Store where
  config_cache : Option Json
  config_cache_time : Option Nat

/-- Possible outcomes of the single `fetch` of the configuration URL:
the promise rejects (transport error), the response arrives with `ok = false`
(non-2xx status, carried along), `response.json()` rejects (body not JSON),
or the body parses to a payload. -/
inductive FetchOutcome where
  | netError : FetchOutcome
  | badStatus : Nat → FetchOutcome
  | parseErr : FetchOutcome
  | success : Json → FetchOutcome

/-- Whether the fetch fails to produce a payload (transport error, non-success
status, or parse error). -/
def FetchOutcome.isFailure : FetchOutcome → Bool
  | .success _ => false
  | _ => true

/-- The external world for one `get()` call: the value the single `Date.now()`
call returns (sampled at step 1, before any fetch), and what the network does
if a fetch is issued. -/
structure Env where
  now : Nat
  fetch : FetchOutcome

/-- The JavaScript errors the `try` block can throw: a rejected `fetch`
(a `TypeError`), the explicit `throw new Error(...)` on `!response.ok`
(carrying the status), or a rejected `response.json()`. -/
inductive JsError where
  | typeErr : JsError
  | statusErr : Nat → JsError
  | parseErr : JsError

/-- Result of a JavaScript async function body: a normal return or a thrown
error. -/
inductive Outcome (α : Type) where
  | ok : α → Outcome α
  | thrown : JsError → Outcome α

/-- `CACHE_DURATION = 2 * 60 * 1000` — the 2-minute freshness window in ms. -/
def CACHE_DURATION : Int := 2 * 60 * 1000

/-- The cache-hit test of the source, truthiness included:
`cachedPrompts && cacheTime && (now - cacheTime < CACHE_DURATION)`.
The subtraction is carried out in `Int`, as JavaScript numbers would. -/
def cacheHit (now : Nat) (cachedPrompts : Option Json) (cacheTime : Option Nat) : Bool :=
  (match cachedPrompts with | none => false | some v => v.truthy) &&
  (match cacheTime with | none => false | some t => t != 0) &&
  decide ((now : Int) - ((cacheTime.getD 0 : Nat) : Int) < CACHE_DURATION)

/-- The body of the `try` block of `ConfigManager.get`: check the cache, else
fetch, on success write payload and timestamp back (one combined
`chrome.storage.local.set` with both keys) and return the payload.  Returns the
outcome (normal value or thrown error), the store after the block, and the
number of network fetches issued. -/
def tryBlock (env : Env) (s : Store) : Outcome (Option Json) × Store × Nat :=
  let cachedPrompts := s.config_cache
  let cacheTime := s.config_cache_time
  let now := env.now
  if cacheHit now cachedPrompts cacheTime then
    (.ok cachedPrompts, s, 0)
  else
    match env.fetch with
    | .netError => (.thrown .typeErr, s, 1)
    | .badStatus st => (.thrown (.statusErr st), s, 1)
    | .parseErr => (.thrown .parseErr, s, 1)
    | .success data =>
        (.ok (some data), { config_cache := some data, config_cache_time := some now }, 1)

/-- `ConfigManager.get`: run the `try` block; on a thrown error, the `catch`
block re-reads `config_cache` from the (unchanged) store and returns it, which
is `undefined` (`none`) when no cache exists. -/
def ConfigManager.get (env : Env) (s : Store) : Outcome (Option Json) × Store × Nat :=
  match tryBlock env s with
  | (.ok v, s1, n) => (.ok v, s1, n)
  | (.thrown _, s1, n) => (.ok s1.config_cache, s1, n)

/-- The payload `{"a":1}` used by the spec's scenarios. -/
def cfgA1 : Json := Json.obj [("a", Json.num 1)]

/-! ### Helper lemmas -/

/-- On a cache hit, `get` returns the cached payload, leaves the store as it
was, and issues no fetch. -/
theorem get_eq_of_hit (env : Env) (s : Store)
    (hhit : cacheHit env.now s.config_cache s.config_cache_time = true) :
    ConfigManager.get env s = (.ok s.config_cache, s, 0) := by
  unfold ConfigManager.get tryBlock
  simp only [hhit, if_true]

/-- On a cache miss, `get` is determined by the fetch outcome: exactly one
fetch is issued; on success both store entries are overwritten together and the
payload returned; on any failure the catch block returns the unchanged cached
payload. -/
theorem get_eq_of_miss (env : Env) (s : Store)
    (hmiss : cacheHit env.now s.config_cache s.config_cache_time = false) :
    ConfigManager.get env s =
      match env.fetch with
      | .success data =>
          (.ok (some data), { config_cache := some data, config_cache_time := some env.now }, 1)
      | _ => (.ok s.config_cache, s, 1) := by
  unfold ConfigManager.get tryBlock
  simp only [hmiss, Bool.false_eq_true, if_false]
  cases env.fetch <;> rfl

/-- A truthy payload with a nonzero timestamp inside the freshness window is a
cache hit. -/
theorem cacheHit_of_fresh (now T : Nat) (P : Json)
    (hP : P.truthy = true) (hT : T ≠ 0)
    (hfresh : (now : Int) - (T : Int) < CACHE_DURATION) :
    cacheHit now (some P) (some T) = true := by
  simp [cacheHit, hP, hT, hfresh]

/-- A timestamp at or past the freshness window is a cache miss, whatever the
payload. -/
theorem cacheHit_false_of_expired (now T : Nat) (c : Option Json)
    (h : CACHE_DURATION ≤ (now : Int) - (T : Int)) :
    cacheHit now c (some T) = false := by
  have h2 : ¬ ((now : Int) - (T : Int) < CACHE_DURATION) := not_lt.mpr h
  simp [cacheHit, h2]

/-- An absent payload key is a cache miss. -/
theorem cacheHit_false_of_absent (now : Nat) (t : Option Nat) :
    cacheHit now none t = false := by
  simp [cacheHit]

/-! ### Claim theorems -/

/-- Claim C1 counterexample: the cache holds the payload `0` (a valid JSON
value, stored by a successful fetch at time 5) with timestamp 5, and `get()` is
called at time 5, well inside the 2-minute window.  The claim predicts the
cached payload is returned with no network fetch; the code issues a fetch,
because the payload `0` is falsy and defeats the truthiness-based hit test. -/
theorem C1_counterexample :
    ¬ ((ConfigManager.get { now := 5, fetch := .success (Json.num 7) }
        { config_cache := some (Json.num 0), config_cache_time := some 5 }).2.2 = 0) := by
  decide

/-- Claim C1 (amended): for every payload `P` stored with timestamp `T`,
provided `P` is truthy and `T ≠ 0`, a `get()` call at time `T'` with
`T' - T < 120000` ms returns `P`, leaves the store unchanged, and performs no
network fetch. -/
theorem C1_fresh_cache_hit (P : Json) (T Tn : Nat) (fo : FetchOutcome)
    (hP : P.truthy = true) (hT : T ≠ 0)
    (hfresh : (Tn : Int) - (T : Int) < CACHE_DURATION) :
    ConfigManager.get { now := Tn, fetch := fo }
      { config_cache := some P, config_cache_time := some T }
      = (.ok (some P), { config_cache := some P, config_cache_time := some T }, 0) :=
  get_eq_of_hit _ _ (cacheHit_of_fresh Tn T P hP hT hfresh)

/-- Claim C1 witness: payload `{"a":1}` stored at time 1, `get()` at time
100000 (99999 ms later) with the network down returns `{"a":1}` and fetches
nothing. -/
theorem C1_fresh_cache_hit_witness :
    ConfigManager.get { now := 100000, fetch := .netError }
      { config_cache := some cfgA1, config_cache_time := some 1 }
      = (.ok (some cfgA1), { config_cache := some cfgA1, config_cache_time := some 1 }, 0) :=
  C1_fresh_cache_hit cfgA1 1 100000 .netError rfl (by decide) (by decide)

/-- Claim C2: `get()` never propagates an exception: for every environment and
store state it produces a normal `ok` result — every error of the fetch, status
check or JSON parse is caught and converted into a cache re-read (store
operations themselves are assumed to succeed, as in the source). -/
theorem C2_never_throws (env : Env) (s : Store) :
    ∃ v, (ConfigManager.get env s).1 = Outcome.ok v := by
  unfold ConfigManager.get
  rcases tryBlock env s with ⟨o, s1, n⟩
  cases o with
  | ok v => exact ⟨v, rfl⟩
  | thrown e => exact ⟨s1.config_cache, rfl⟩

/-- Claim C3: whenever the store holds a cached payload `P` and the fetch fails
(transport error, non-success status, or parse error), `get()` returns `P` —
even when the timestamp is past the freshness window (stale-serving). -/
theorem C3_stale_serving (env : Env) (s : Store) (P : Json)
    (hc : s.config_cache = some P) (hf : env.fetch.isFailure = true) :
    (ConfigManager.get env s).1 = .ok (some P) := by
  cases hhit : cacheHit env.now s.config_cache s.config_cache_time with
  | true => rw [get_eq_of_hit env s hhit, hc]
  | false =>
      rw [get_eq_of_miss env s hhit]
      cases hfe : env.fetch with
      | success data => rw [hfe] at hf; exact absurd hf (by simp [FetchOutcome.isFailure])
      | netError => simp [hc]
      | badStatus st => simp [hc]
      | parseErr => simp [hc]

/-- Claim C3 witness: the spec's scenario — cache holds `{"a":1}` stored at
time 1, `get()` at time 180000 (past the window), network fails; the stale
`{"a":1}` is returned. -/
theorem C3_stale_serving_witness :
    (ConfigManager.get { now := 180000, fetch := .netError }
      { config_cache := some cfgA1, config_cache_time := some 1 }).1 = .ok (some cfgA1) :=
  C3_stale_serving _ _ cfgA1 rfl rfl

/-- Claim C4 counterexample: in the exact scenario of the claim — cache holds
`{"a":1}` stored with timestamp 0, `get()` called at 60000 ms, network
unreachable — the code DOES attempt a network fetch (fetch count 1, not 0):
the timestamp 0 is falsy, so the truthiness-based hit test fails despite the
entry being well inside the window. -/
theorem C4_counterexample :
    ¬ ((ConfigManager.get { now := 60000, fetch := .netError }
        { config_cache := some cfgA1, config_cache_time := some 0 }).2.2 = 0) := by
  decide

/-- Claim C4 (amended): with the cache holding `{"a":1}` stored at any nonzero
timestamp — here 1 — and `get()` called 60000 ms later with the network
unreachable, `{"a":1}` is returned with no network fetch; in the claim's
original scenario with timestamp exactly 0, `get()` still returns `{"a":1}` but
only after one failed network fetch, because the timestamp 0 is falsy and the
hit test fails. -/
theorem C4_amended_scenario :
    ConfigManager.get { now := 60001, fetch := .netError }
      { config_cache := some cfgA1, config_cache_time := some 1 }
      = (.ok (some cfgA1), { config_cache := some cfgA1, config_cache_time := some 1 }, 0) ∧
    ConfigManager.get { now := 60000, fetch := .netError }
      { config_cache := some cfgA1, config_cache_time := some 0 }
      = (.ok (some cfgA1), { config_cache := some cfgA1, config_cache_time := some 0 }, 1) :=
  ⟨rfl, rfl⟩

/-- Claim C5: a successful fetch overwrites the payload and the timestamp
entries together, in the one resulting store state (no state with only one of
them updated exists), returns the fresh payload, and the timestamp it stores is
the clock sample `now` of this call — so any timestamp read at a later clock
value `t ≥ now` is `≤ t`: no timestamp in the future is ever stored. -/
theorem C5_combined_write (env : Env) (s : Store) (data : Json)
    (hmiss : cacheHit env.now s.config_cache s.config_cache_time = false)
    (hf : env.fetch = .success data) :
    ConfigManager.get env s
      = (.ok (some data), { config_cache := some data, config_cache_time := some env.now }, 1) ∧
    ∀ T t : Nat, env.now ≤ t →
      (ConfigManager.get env s).2.1.config_cache_time = some T → T ≤ t := by
  have hget : ConfigManager.get env s
      = (.ok (some data), { config_cache := some data, config_cache_time := some env.now }, 1) := by
    rw [get_eq_of_miss env s hmiss, hf]
  refine ⟨hget, ?_⟩
  intro T t hle hT
  rw [hget] at hT
  simp only [Option.some.injEq] at hT
  omega

/-- Claim C5 witness: empty cache, fetch succeeds with `{"a":1}` at time 42;
the store afterwards holds both the payload and timestamp 42, and timestamp 42
is `≤` the read-time clock 42. -/
theorem C5_combined_write_witness :
    ConfigManager.get { now := 42, fetch := .success cfgA1 }
      { config_cache := none, config_cache_time := none }
      = (.ok (some cfgA1), { config_cache := some cfgA1, config_cache_time := some 42 }, 1) ∧
    (42 : Nat) ≤ 42 :=
  ⟨(C5_combined_write { now := 42, fetch := .success cfgA1 }
      { config_cache := none, config_cache_time := none } cfgA1 (by decide) rfl).1,
   (C5_combined_write { now := 42, fetch := .success cfgA1 }
      { config_cache := none, config_cache_time := none } cfgA1 (by decide) rfl).2
      42 42 le_rfl (by rw [(C5_combined_write { now := 42, fetch := .success cfgA1 }
        { config_cache := none, config_cache_time := none } cfgA1 (by decide) rfl).1])⟩

/-- Claim C6: `get()` writes to the store only on the successful-fetch path —
on a cache hit the store is unchanged, and whenever the fetch fails (so the
error-fallback path runs, if reached at all) the store is unchanged too. -/
theorem C6_no_write_off_success (env : Env) (s : Store) :
    (cacheHit env.now s.config_cache s.config_cache_time = true →
      (ConfigManager.get env s).2.1 = s) ∧
    (env.fetch.isFailure = true → (ConfigManager.get env s).2.1 = s) := by
  constructor
  · intro hhit
    rw [get_eq_of_hit env s hhit]
  · intro hf
    cases hhit : cacheHit env.now s.config_cache s.config_cache_time with
    | true => rw [get_eq_of_hit env s hhit]
    | false =>
        rw [get_eq_of_miss env s hhit]
        cases hfe : env.fetch with
        | success data => rw [hfe] at hf; exact absurd hf (by simp [FetchOutcome.isFailure])
        | netError => rfl
        | badStatus st => rfl
        | parseErr => rfl

/-- Claim C6 witness: on a fresh-cache hit (stored at 1, read at 2) and on a
stale fallback (stored at 1, read at 900000, network down) the store comes back
exactly as it went in. -/
theorem C6_no_write_off_success_witness :
    (ConfigManager.get { now := 2, fetch := .netError }
      { config_cache := some cfgA1, config_cache_time := some 1 }).2.1
      = { config_cache := some cfgA1, config_cache_time := some 1 } ∧
    (ConfigManager.get { now := 900000, fetch := .badStatus 404 }
      { config_cache := some cfgA1, config_cache_time := some 1 }).2.1
      = { config_cache := some cfgA1, config_cache_time := some 1 } :=
  ⟨(C6_no_write_off_success { now := 2, fetch := .netError }
      { config_cache := some cfgA1, config_cache_time := some 1 }).1 (by decide),
   (C6_no_write_off_success { now := 900000, fetch := .badStatus 404 }
      { config_cache := some cfgA1, config_cache_time := some 1 }).2 rfl⟩

/-- Claim C7: with no cached payload present, a failing fetch makes `get()`
return the absent value (`undefined`, modelled `none`) rather than raising an
error. -/
theorem C7_absent_on_total_failure (env : Env) (s : Store)
    (hc : s.config_cache = none) (hf : env.fetch.isFailure = true) :
    (ConfigManager.get env s).1 = .ok none := by
  have hmiss : cacheHit env.now s.config_cache s.config_cache_time = false := by
    rw [hc]; exact cacheHit_false_of_absent env.now s.config_cache_time
  rw [get_eq_of_miss env s hmiss]
  cases hfe : env.fetch with
  | success data => rw [hfe] at hf; exact absurd hf (by simp [FetchOutcome.isFailure])
  | netError => simp [hc]
  | badStatus st => simp [hc]
  | parseErr => simp [hc]

/-- Claim C7 witness: empty store, network down at time 0; `get()` returns the
absent value. -/
theorem C7_absent_on_total_failure_witness :
    (ConfigManager.get { now := 0, fetch := .netError }
      { config_cache := none, config_cache_time := none }).1 = .ok none :=
  C7_absent_on_total_failure _ _ rfl rfl

/-- On a cache miss exactly one fetch is issued, whatever its outcome. -/
theorem get_fetchCount_of_miss (env : Env) (s : Store)
    (hmiss : cacheHit env.now s.config_cache s.config_cache_time = false) :
    (ConfigManager.get env s).2.2 = 1 := by
  rw [get_eq_of_miss env s hmiss]
  cases env.fetch <;> rfl

/-- A falsy payload or a zero timestamp defeats the truthiness-based hit test. -/
theorem cacheHit_false_of_falsy (now T : Nat) (v : Json)
    (h : v.truthy = false ∨ T = 0) :
    cacheHit now (some v) (some T) = false := by
  rcases h with h | h
  · simp [cacheHit, h]
  · simp [cacheHit, h]

/-- Claim C8: with a payload stored at timestamp `T`, a `get()` call at a time
`T'` with `T' - T ≥ 120000` ms (at or past the freshness window) issues exactly
one network fetch — never zero and, the code having no retry, never more than
one even when the fetch fails. -/
theorem C8_expired_single_fetch (env : Env) (s : Store) (P : Json) (T : Nat)
    (_hc : s.config_cache = some P) (ht : s.config_cache_time = some T)
    (hage : CACHE_DURATION ≤ (env.now : Int) - (T : Int)) :
    (ConfigManager.get env s).2.2 = 1 := by
  have hmiss : cacheHit env.now s.config_cache s.config_cache_time = false := by
    rw [ht]; exact cacheHit_false_of_expired env.now T s.config_cache hage
  exact get_fetchCount_of_miss env s hmiss

/-- Claim C8 witness: payload stored at time 1, `get()` at time 120001
(age exactly the window) with the network failing — one fetch is issued. -/
theorem C8_expired_single_fetch_witness :
    (ConfigManager.get { now := 120001, fetch := .netError }
      { config_cache := some cfgA1, config_cache_time := some 1 }).2.2 = 1 :=
  C8_expired_single_fetch _ _ cfgA1 1 rfl rfl (by decide)

/-- Claim C9: when the cached payload is a falsy JSON value (`null`, `false`,
`0` or `""`) or the cached timestamp is `0`, `get()` treats the cache as missed
and issues a network fetch even though the entry is present and within the
freshness window — the hit condition tests truthiness, not presence. -/
theorem C9_falsy_cache_misses (env : Env) (s : Store) (v : Json) (T : Nat)
    (hc : s.config_cache = some v) (ht : s.config_cache_time = some T)
    (_hwin : (env.now : Int) - (T : Int) < CACHE_DURATION)
    (hfalsy : v.truthy = false ∨ T = 0) :
    (ConfigManager.get env s).2.2 = 1 := by
  have hmiss : cacheHit env.now s.config_cache s.config_cache_time = false := by
    rw [hc, ht]; exact cacheHit_false_of_falsy env.now T v hfalsy
  exact get_fetchCount_of_miss env s hmiss

/-- Claim C9 witness: cached payload `null` stored at timestamp 3, `get()` at
time 4 (age 1 ms, far inside the window) still issues a fetch. -/
theorem C9_falsy_cache_misses_witness :
    (ConfigManager.get { now := 4, fetch := .success cfgA1 }
      { config_cache := some Json.null, config_cache_time := some 3 }).2.2 = 1 :=
  C9_falsy_cache_misses _ _ Json.null 3 rfl rfl (by decide) (Or.inl rfl)

/-- Claim C10: the timestamp a successful fetch stores is `env.now`, the single
`Date.now()` sample taken at the start of `get()` before the fetch is issued —
not the clock value at the moment of the write.  Hence the freshness window of
the new entry runs from the pre-fetch sample: a second `get()` whose clock
reads `env.now + 120000` — which is less than 120000 ms after the write
whenever the fetch took any time at all — already misses the cache and issues a
network fetch. -/
theorem C10_timestamp_presample (env : Env) (s : Store) (data : Json)
    (hmiss : cacheHit env.now s.config_cache s.config_cache_time = false)
    (hf : env.fetch = .success data) :
    (ConfigManager.get env s).2.1.config_cache_time = some env.now ∧
    ∀ env2 : Env, env2.now = env.now + 120000 →
      (ConfigManager.get env2 (ConfigManager.get env s).2.1).2.2 = 1 := by
  have hget : ConfigManager.get env s
      = (.ok (some data), { config_cache := some data, config_cache_time := some env.now }, 1) := by
    rw [get_eq_of_miss env s hmiss, hf]
  refine ⟨by rw [hget], ?_⟩
  intro env2 h2
  rw [hget]
  refine get_fetchCount_of_miss env2 _ ?_
  show cacheHit env2.now (some data) (some env.now) = false
  refine cacheHit_false_of_expired env2.now env.now (some data) ?_
  rw [h2]
  push_cast
  simp [CACHE_DURATION]

/-- Claim C10 witness: empty cache, fetch succeeds at clock 5; the stored
timestamp is 5, and a follow-up call at clock 120005 issues a fetch. -/
theorem C10_timestamp_presample_witness :
    (ConfigManager.get { now := 5, fetch := .success cfgA1 }
      { config_cache := none, config_cache_time := none }).2.1.config_cache_time = some 5 ∧
    (ConfigManager.get { now := 120005, fetch := .netError }
      (ConfigManager.get { now := 5, fetch := .success cfgA1 }
        { config_cache := none, config_cache_time := none }).2.1).2.2 = 1 :=
  ⟨(C10_timestamp_presample { now := 5, fetch := .success cfgA1 }
      { config_cache := none, config_cache_time := none } cfgA1 (by decide) rfl).1,
   (C10_timestamp_presample { now := 5, fetch := .success cfgA1 }
      { config_cache := none, config_cache_time := none } cfgA1 (by decide) rfl).2
      { now := 120005, fetch := .netError } rfl⟩
